import Mathlib

/-!
Verification development for the MIDI channel-message / meta-event codec
(package `channel` and package `meta` of the repository).

Bytes are modelled as `Nat` values (< 256 on the wire); a sequential byte
source (`io.Reader`) is a `List Nat`, and a read either returns a value
together with the rest of the list or an error.  Go runtime panics
(nil-interface method call, integer division by zero, explicit `panic`)
are modelled as a distinguished `panicked` outcome.
-/

namespace Midi

/-- Error taxonomy: `eof` models `io.EOF` / truncation, `unexpectedLength`
models `lib.UnexpectedMessageLengthError` (a distinct error kind). -/
inductive Err : Type where
  | eof : Err
  | unexpectedLength : String → Err
  deriving DecidableEq, Repr

/-- Modelled from the spec: `lib.ReadByte` reads a single byte from the
byte source, distinguishing end of input from success. -/
def readByte : List Nat → Except Err (Nat × List Nat)
  | [] => .error .eof
  | b :: r => .ok (b, r)

/-- Modelled from the spec: `lib.ReadUint16` reads a 2-byte big-endian
unsigned integer. -/
def readUint16 (rd : List Nat) : Except Err (Nat × List Nat) :=
  match readByte rd with
  | .error e => .error e
  | .ok (b1, r1) =>
    match readByte r1 with
    | .error e => .error e
    | .ok (b2, r2) => .ok (b1 * 256 + b2, r2)

/-- Modelled from the spec: `lib.ReadUint24` reads a 3-byte big-endian
unsigned integer (microseconds per quarter note for Tempo). -/
def readUint24 (rd : List Nat) : Except Err (Nat × List Nat) :=
  match readByte rd with
  | .error e => .error e
  | .ok (b1, r1) =>
    match readUint16 r1 with
    | .error e => .error e
    | .ok (v, r2) => .ok (b1 * 65536 + v, r2)

/-- Modelled from the spec (§4.1): VLQ decoding accumulates 7 bits per
byte, most significant first, until a byte without the continuation bit
(0x80); truncation is an error. -/
def readVarLengthAux : Nat → List Nat → Except Err (Nat × List Nat)
  | _, [] => .error .eof
  | acc, b :: r =>
    if b < 128 then .ok (acc * 128 + b, r)
    else readVarLengthAux (acc * 128 + (b % 128)) r

/-- Modelled from the spec: `lib.ReadVarLength` decodes one VLQ value. -/
def readVarLength (rd : List Nat) : Except Err (Nat × List Nat) :=
  readVarLengthAux 0 rd

/-- Modelled from the spec: `lib.ReadVarLengthData` reads a VLQ length and
then exactly that many payload bytes (truncation error if the source is
shorter). -/
def readVarLengthData (rd : List Nat) : Except Err (List Nat × List Nat) :=
  match readVarLength rd with
  | .error e => .error e
  | .ok (n, rest) =>
    if n ≤ rest.length then .ok (rest.take n, rest.drop n) else .error .eof

/-- Modelled from the spec: `lib.ReadText` reads a VLQ length followed by
that many text bytes (returned here as the raw byte list). -/
def readText (rd : List Nat) : Except Err (List Nat × List Nat) :=
  readVarLengthData rd

/-- Modelled from the spec (§4.1): `lib.VlqEncode` produces the minimal
big-endian 7-bits-per-byte encoding of a `u32`; every byte except the
last carries the continuation bit (0x80).  A `u32` needs at most five
7-bit chunks, so the minimal-length grouping is written out by size. -/
def vlqEncode (value : Nat) : List Nat :=
  if value < 128 then [value % 128]
  else if value < 128 ^ 2 then
    [value / 128 % 128 + 128, value % 128]
  else if value < 128 ^ 3 then
    [value / 128 ^ 2 % 128 + 128, value / 128 % 128 + 128, value % 128]
  else if value < 128 ^ 4 then
    [value / 128 ^ 3 % 128 + 128, value / 128 ^ 2 % 128 + 128,
     value / 128 % 128 + 128, value % 128]
  else
    [value / 128 ^ 4 % 128 + 128, value / 128 ^ 3 % 128 + 128,
     value / 128 ^ 2 % 128 + 128, value / 128 % 128 + 128, value % 128]

/-- `(&metaMessage{Typ: t, Data: d}).Bytes()`: `0xFF`, the type byte, the
VLQ-encoded payload length, then the payload. -/
def metaMessageBytes (typ : Nat) (data : List Nat) : List Nat :=
  255 :: typ :: (vlqEncode data.length ++ data)

/-- The closed set of meta message variants of package `meta`
(constructor fields mirror the exported fields of the Go types). -/
inductive MetaMsg : Type where
  | endOfTrack : MetaMsg
  | sequenceNumber : Nat → MetaMsg
  | text : List Nat → MetaMsg
  | copyright : List Nat → MetaMsg
  | sequence : List Nat → MetaMsg
  | trackInstrument : List Nat → MetaMsg
  | marker : List Nat → MetaMsg
  | lyric : List Nat → MetaMsg
  | cuePoint : List Nat → MetaMsg
  | programName : List Nat → MetaMsg
  | midiChannel : Nat → MetaMsg
  | midiPort : Nat → MetaMsg
  | tempo : Nat → MetaMsg
  | timeSignature : (numerator : Nat) → (denominator : Nat) → MetaMsg
  | keySignature : (key : Nat) → (isMajor : Bool) → (num : Nat) → (isFlat : Bool) → MetaMsg
  | devicePort : List Nat → MetaMsg
  | undefined : (typ : Nat) → (data : List Nat) → MetaMsg
  deriving DecidableEq, Repr

/-- Result of a meta `readFrom`: a message plus the remaining bytes, an
error, or a Go runtime panic. -/
inductive MetaOutcome : Type where
  | ok : MetaMsg → List Nat → MetaOutcome
  | err : Err → MetaOutcome
  | panicked : MetaOutcome
  deriving DecidableEq, Repr

/-- Lift an `Except`-style read into a `MetaOutcome`. -/
def liftRead (r : Except Err (MetaMsg × List Nat)) : MetaOutcome :=
  match r with
  | .error e => .err e
  | .ok (m, rest) => .ok m rest

namespace EndOfTrack

/-- `endOfTrack.readFrom`: reads the VLQ length, requires it to be 0
(`UnexpectedMessageLengthError` otherwise) and returns `EndOfTrack`. -/
def readFrom (rd : List Nat) : MetaOutcome :=
  match readVarLength rd with
  | .error e => .err e
  | .ok (length, r1) =>
    if length ≠ 0 then .err (.unexpectedLength "EndOfTrack expected length 0")
    else .ok .endOfTrack r1

end EndOfTrack

namespace SequenceNumber

/-- `SequenceNumber.readFrom`: reads the length with `lib.ReadByte` (not
as a VLQ); a zero length yields `SequenceNumber(0)`; any other length
causes a big-endian `uint16` to be read with no length validation. -/
def readFrom (rd : List Nat) : MetaOutcome :=
  match readByte rd with
  | .error e => .err e
  | .ok (length, r1) =>
    if length = 0 then .ok (.sequenceNumber 0) r1
    else
      match readUint16 r1 with
      | .error e => .err e
      | .ok (v, r2) => .ok (.sequenceNumber v) r2

end SequenceNumber

namespace Tempo

/-- `Tempo.readFrom`: VLQ length must be 3, then a 3-byte big-endian
microseconds-per-crotchet value; the source computes
`bpm = 60000000 / microsecondsPerCrotchet` with no zero guard, so a zero
value is a Go integer division by zero, i.e. a runtime panic. -/
def readFrom (rd : List Nat) : MetaOutcome :=
  match readVarLength rd with
  | .error e => .err e
  | .ok (length, r1) =>
    if length ≠ 3 then .err (.unexpectedLength "Tempo expected length 3")
    else
      match readUint24 r1 with
      | .error e => .err e
      | .ok (microsecondsPerCrotchet, r2) =>
        if microsecondsPerCrotchet = 0 then .panicked
        else .ok (.tempo (60000000 / microsecondsPerCrotchet)) r2

end Tempo

namespace TimeSignature

/-- `bin2decDenom`: converts the binary (exponent) denominator to the
decimal one; `bin = 0` is mapped to 1, otherwise `2 << (bin-1)` in
`uint8` arithmetic. -/
def bin2decDenom (bin : Nat) : Nat :=
  if bin = 0 then 1 else (2 * 2 ^ (bin - 1)) % 256

/-- Loop of `dec2binDenom`: `for dec > 2 { bin++; dec = dec >> 1 }`,
returning `bin + 1`. -/
def dec2binDenomLoop (dec bin : Nat) : Nat :=
  if h : dec > 2 then dec2binDenomLoop (dec / 2) (bin + 1)
  else bin + 1
  termination_by dec
  decreasing_by exact Nat.div_lt_self (by omega) (by omega)

/-- `dec2binDenom`: converts the decimal denominator to the binary
(exponent) one; `dec ≤ 1` yields 0. -/
def dec2binDenom (dec : Nat) : Nat :=
  if dec ≤ 1 then 0 else dec2binDenomLoop dec 0

/-- `TimeSignature.Raw()`: writes numerator, `dec2binDenom` of the
denominator, and the two discarded fields as the fixed bytes 8 and 8. -/
def Raw (numerator denominator : Nat) : List Nat :=
  metaMessageBytes 0x58 [numerator, dec2binDenom denominator, 8, 8]

/-- `TimeSignature.readFrom`: VLQ length must be 4; reads numerator,
denominator exponent, clocks-per-click and 32nd-notes-per-quarter (the
last two are consumed but discarded).  The denominator is computed by
the inline Go expression `2 << (denomenator - 1)` in `uint8` arithmetic:
the subtraction wraps (0 - 1 = 255) and the shift result is truncated to
8 bits, modelled as `(2 * 2 ^ ((d + 255) % 256)) % 256`. -/
def readFrom (rd : List Nat) : MetaOutcome :=
  match readVarLength rd with
  | .error e => .err e
  | .ok (length, r1) =>
    if length ≠ 4 then .err (.unexpectedLength "TimeSignature expected length 4")
    else
      match readByte r1 with
      | .error e => .err e
      | .ok (numerator, r2) =>
        match readByte r2 with
        | .error e => .err e
        | .ok (denomenator, r3) =>
          match readByte r3 with
          | .error e => .err e
          | .ok (_clocksPerClick, r4) =>
            match readByte r4 with
            | .error e => .err e
            | .ok (_demiSemiQuaverPerQuarter, r5) =>
              .ok (.timeSignature numerator
                    ((2 * 2 ^ ((denomenator + 255) % 256)) % 256)) r5

end TimeSignature

/-- Interpret a wire byte as a Go `int8` (two's complement). -/
def toInt8 (b : Nat) : Int :=
  if b < 128 then (b : Int) else (b : Int) - 256

/-- Wrap an integer into the `int8` range `[-128, 127]` (Go signed
8-bit overflow wraps around). -/
def wrap8 (x : Int) : Int :=
  (x + 128) % 256 - 128

namespace KeySignature

/-- The `for tmp < 0 { tmp += 12 }` normalization loop of
`keyFromSharpsOrFlats`. -/
def addTwelveUntilNonneg (t : Int) : Int :=
  if h : t < 0 then addTwelveUntilNonneg (t + 12) else t
  termination_by (-t).toNat
  decreasing_by
    have h12 : (-(t + 12)).toNat < (-t).toNat := by omega
    exact h12

/-- `keyFromSharpsOrFlats`: `tmp := int(sharpsOrFlats * 7)` — the
multiplication is performed in `int8` and wraps — minus 3 for the
relative minor, normalized to be non-negative by adding 12, then reduced
`% 12` (the operand is non-negative there, so Go's truncated `%` agrees
with `Int.emod`). -/
def keyFromSharpsOrFlats (sharpsOrFlats : Int) (mode : Nat) : Nat :=
  let tmp := wrap8 (sharpsOrFlats * 7)
  let tmp := if mode = 1 then tmp - 3 else tmp
  (addTwelveUntilNonneg tmp % 12).toNat

/-- `KeySignature.readFrom`: VLQ length must be 2; reads the signed
sharps/flats byte and the mode byte, storing the derived pitch class,
the major flag (`mode == majorMode`), the absolute accidental count and
the flat polarity (`sharpsOrFlats < 0`). -/
def readFrom (rd : List Nat) : MetaOutcome :=
  match readVarLength rd with
  | .error e => .err e
  | .ok (length, r1) =>
    if length ≠ 2 then .err (.unexpectedLength "KeySignature expected length 2")
    else
      match readByte r1 with
      | .error e => .err e
      | .ok (b, r2) =>
        match readByte r2 with
        | .error e => .err e
        | .ok (mode, r3) =>
          let sharpsOrFlats := toInt8 b
          .ok (.keySignature (keyFromSharpsOrFlats sharpsOrFlats mode)
                (decide (mode = 0)) sharpsOrFlats.natAbs
                (decide (sharpsOrFlats < 0))) r3

end KeySignature

/-- Result of a `Raw()` call that may panic. -/
inductive RawOutcome : Type where
  | bytes : List Nat → RawOutcome
  | panicked : RawOutcome
  deriving DecidableEq, Repr

namespace DevicePort

/-- `DevicePort.readFrom`: reads a VLQ length and that many text bytes
via `lib.ReadText`. -/
def readFrom (rd : List Nat) : MetaOutcome :=
  match readText rd with
  | .error e => .err e
  | .ok (text, rest) => .ok (.devicePort text) rest

/-- `DevicePort.Raw()`: the source body is exactly
`panic("not implemented")` (marked `// TODO implement`), regardless of
the receiver's text. -/
def Raw (_text : List Nat) : RawOutcome :=
  .panicked

end DevicePort

namespace Undefined

/-- `Undefined.readFrom`: reads a VLQ length and that many raw payload
bytes, preserving the receiver's type byte. -/
def readFrom (typ : Nat) (rd : List Nat) : MetaOutcome :=
  match readVarLengthData rd with
  | .error e => .err e
  | .ok (data, rest) => .ok (.undefined typ data) rest

/-- `Undefined.Raw()`: re-encodes the preserved type byte and payload
through `metaMessage.Bytes`. -/
def Raw (typ : Nat) (data : List Nat) : List Nat :=
  metaMessageBytes typ data

end Undefined

/-- `Dispatch`: lookup in the `metaMessages` map.  A hit returns the
registered prototype value; a miss returns the map's zero value, a `nil`
interface, modelled by `none`.  The entry for `0x7F`
(SequencerSpecificInfo) is explicitly `nil` in the source and therefore
also `none`. -/
def Dispatch (b : Nat) : Option MetaMsg :=
  if b = 0x2F then some .endOfTrack
  else if b = 0x00 then some (.sequenceNumber 0)
  else if b = 0x01 then some (.text [])
  else if b = 0x02 then some (.copyright [])
  else if b = 0x03 then some (.sequence [])
  else if b = 0x04 then some (.trackInstrument [])
  else if b = 0x05 then some (.lyric [])
  else if b = 0x06 then some (.marker [])
  else if b = 0x07 then some (.cuePoint [])
  else if b = 0x20 then some (.midiChannel 0)
  else if b = 0x09 then some (.devicePort [])
  else if b = 0x21 then some (.midiPort 0)
  else if b = 0x51 then some (.tempo 0)
  else if b = 0x58 then some (.timeSignature 0 0)
  else if b = 0x59 then some (.keySignature 0 false 0 false)
  else none

/-- `meta.ReadFrom(typ, rd)`: the source runs
`m := Dispatch(typ); if m != nil { m = Undefined{Typ: typ} }` and then
calls `m.readFrom(rd)`.  When `Dispatch` hits (`m != nil`), the
registered codec is replaced by the `Undefined` codec; when it misses,
`m` stays a `nil` interface and the method call is a nil-pointer
runtime panic. -/
def ReadFrom (typ : Nat) (rd : List Nat) : MetaOutcome :=
  match Dispatch typ with
  | some _ => Undefined.readFrom typ rd
  | none => .panicked

/-- Channel voice message variants of package `channel`.  Modelled from
the spec for the field layout of each struct (the `set` methods live in
files outside `src/`): `NoteOff` carries no velocity ("velocity field
absent/ignored"), `NoteOffPedantic` retains the velocity it was set
with, the remaining variants carry channel plus their 1 or 2 data
bytes. -/
inductive ChannelMsg : Type where
  | noteOff : (channel key : Nat) → ChannelMsg
  | noteOffPedantic : (channel key velocity : Nat) → ChannelMsg
  | noteOn : (channel key velocity : Nat) → ChannelMsg
  | polyphonicAfterTouch : (channel key pressure : Nat) → ChannelMsg
  | controlChange : (channel controller value : Nat) → ChannelMsg
  | programChange : (channel program : Nat) → ChannelMsg
  | afterTouch : (channel pressure : Nat) → ChannelMsg
  | pitchWheel : (channel arg1 arg2 : Nat) → ChannelMsg
  deriving DecidableEq, Repr

/-- Result of `reader.Read`: a message, a propagated I/O error, or a Go
runtime panic from the unreachable-type branches. -/
inductive ChanOutcome : Type where
  | ok : ChannelMsg → ChanOutcome
  | err : Err → ChanOutcome
  | panicked : ChanOutcome
  deriving DecidableEq, Repr

/-- The `reader` struct of package `channel`. -/
structure ChReader : Type where
  input : List Nat
  status : Nat
  done : Bool
  readNoteOffPedantic : Bool
  deriving DecidableEq, Repr

/-- `NewReader(input, status, options...)`: `done` starts `false`; the
`ReadNoteOffPedantic()` option sets the pedantic flag. -/
def NewReader (input : List Nat) (status : Nat) (pedantic : Bool) : ChReader :=
  ⟨input, status, false, pedantic⟩

/-- The switch of `reader.getMsg1` (one-argument messages): `0xC` is
ProgramChange, `0xD` is AfterTouch (channel pressure); any other type
hits the `panic("must not happen ...")` default branch. -/
def getMsg1 (typ channel arg : Nat) : ChanOutcome :=
  if typ = 0xC then .ok (.programChange channel arg)
  else if typ = 0xD then .ok (.afterTouch channel arg)
  else .panicked

/-- The switch of `reader.getMsg2` before the zero-velocity
reclassification: note the `byteNoteOff` case picks `NoteOffPedantic`
when the pedantic flag is set, and the `byteNoteOn` case always builds a
`NoteOn`.  `none` models the `panic("must not happen ...")` default. -/
def classify2 (pedantic : Bool) (typ channel arg1 arg2 : Nat) : Option ChannelMsg :=
  if typ = 0x8 then
    some (if pedantic then .noteOffPedantic channel arg1 arg2 else .noteOff channel arg1)
  else if typ = 0x9 then some (.noteOn channel arg1 arg2)
  else if typ = 0xA then some (.polyphonicAfterTouch channel arg1 arg2)
  else if typ = 0xB then some (.controlChange channel arg1 arg2)
  else if typ = 0xE then some (.pitchWheel channel arg1 arg2)
  else none

/-- The tail of `reader.getMsg2`: a constructed `NoteOn` whose velocity
is 0 is replaced by `NoteOff{}.set(channel, arg1, 0)`. -/
def reclassifyZeroVelocity (channel arg1 : Nat) (msg : ChannelMsg) : ChannelMsg :=
  match msg with
  | .noteOn _ _ 0 => .noteOff channel arg1
  | m => m

/-- `reader.getMsg2` in full: switch on the type, then the
zero-velocity `NoteOn` reclassification. -/
def getMsg2 (pedantic : Bool) (typ channel arg1 arg2 : Nat) : ChanOutcome :=
  match classify2 pedantic typ channel arg1 arg2 with
  | none => .panicked
  | some msg => .ok (reclassifyZeroVelocity channel arg1 msg)

namespace Reader

/-- `reader.Read`: returns `io.EOF` immediately when `done`; otherwise
splits the status byte into type and channel nibbles (`lib.ParseStatus`,
modelled from the spec: high nibble is the type selector, low nibble the
channel), reads the first data byte, sets `done`, and dispatches —
`0xC`/`0xD` to `getMsg1`, everything else reads a second data byte and
goes to `getMsg2`.  Returns the outcome together with the reader state
after the call. -/
def Read (r : ChReader) : ChanOutcome × ChReader :=
  if r.done then (.err .eof, r)
  else
    let typ := r.status / 16
    let channel := r.status % 16
    match r.input with
    | [] => (.err .eof, { r with done := true })
    | arg1 :: rest1 =>
      let r1 : ChReader := { r with done := true, input := rest1 }
      if typ = 0xC ∨ typ = 0xD then (getMsg1 typ channel arg1, r1)
      else
        match rest1 with
        | [] => (.err .eof, { r1 with input := [] })
        | arg2 :: rest2 =>
          (getMsg2 r.readNoteOffPedantic typ channel arg1 arg2,
           { r1 with input := rest2 })

end Reader

/-! Theorems.  Each claim of the specification is settled by one theorem
below; auxiliary lemmas carry no claim id. -/

/-- C1: the claim says `ReadFrom` dispatches to the registered codec and
falls back to `Undefined` for unknown ids, so unknown type `0x50` with
length 3 and payload `[1,2,3]` decodes to `Undefined{0x50,[1,2,3]}`.
The code's nil check is inverted: the unknown type `0x50` leaves the
dispatched interface `nil` and the method call panics, while a
registered type (`0x51`, Tempo) is decoded by the `Undefined` codec
instead of its own.  Only the re-encoding half of the claim holds:
`Undefined{0x50,[1,2,3]}.Raw()` is exactly `FF 50 03 01 02 03`. -/
theorem C1_dispatch_inverted_panics :
    ReadFrom 0x50 [3, 1, 2, 3] = .panicked ∧
    ReadFrom 0x51 [3, 1, 2, 3] = .ok (.undefined 0x51 [1, 2, 3]) [] ∧
    Undefined.Raw 0x50 [1, 2, 3] = [0xFF, 0x50, 0x03, 0x01, 0x02, 0x03] := by
  refine ⟨by decide, by decide, by decide⟩

/-- C2: the claim says a pedantic reader decodes a literal note-off
status (high nibble 0x8) to `NoteOff` and a disguised
`NoteOn(velocity=0)` (high nibble 0x9) to `NoteOffPedantic`.  The code
does the opposite of its own `ReadNoteOffPedantic` doc comment: the
literal 0x8 status produces `NoteOffPedantic` (keeping the velocity) and
the zero-velocity `NoteOn` is reclassified to plain `NoteOff`. -/
theorem C2_pedantic_variants_swapped :
    (Reader.Read (NewReader [60, 64] 0x80 true)).1 = .ok (.noteOffPedantic 0 60 64) ∧
    (Reader.Read (NewReader [60, 0] 0x90 true)).1 = .ok (.noteOff 0 60) := by
  refine ⟨by decide, by decide⟩

/-- C3: the claim says a Tempo payload of 0 microseconds per quarter
note returns an explicit error instead of dividing by zero.  The code
computes `60000000 / microsecondsPerCrotchet` with no zero guard: at
declared length 3 and payload `00 00 00` the division panics at runtime
(Go integer divide by zero); no error branch exists for this case. -/
theorem C3_tempo_zero_division_panics :
    Tempo.readFrom [3, 0, 0, 0] = .panicked := by
  decide

/-- C8: the claim says every decoded `DevicePort` re-encodes through
`Raw()` to the original wire bytes.  Decoding `FF 09 03 61 62 63` does
yield `DevicePort("abc")`, but `DevicePort.Raw()` is literally
`panic("not implemented")`, so no `DevicePort` value re-encodes at
all. -/
theorem C8_deviceport_raw_not_implemented :
    DevicePort.readFrom [3, 97, 98, 99] = .ok (.devicePort [97, 98, 99]) [] ∧
    DevicePort.Raw [97, 98, 99] = .panicked := by
  refine ⟨by decide, rfl⟩

/-- C4 counterexample: the claim says the decoded `Denominator` equals
`2 ^ e` for every exponent byte, in particular 1 for `e = 0`.  Decoding
`FF 58 04 06 00 18 08` (numerator 6, exponent 0) stores `Denominator`
0, because the inline `2 << (e - 1)` wraps the `uint8` subtraction to
255 and the shift truncates to 0 — not `2 ^ 0 = 1`. -/
theorem C4_exponent_zero_counterexample :
    TimeSignature.readFrom [4, 6, 0, 24, 8] = .ok (.timeSignature 6 0) [] ∧
    TimeSignature.readFrom [4, 6, 0, 24, 8] ≠ .ok (.timeSignature 6 (2 ^ 0)) [] := by
  refine ⟨by decide, by decide⟩

/-- C5 counterexample: the claim says decode∘encode is the identity for
every denominator in {1,2,4,8,16,32}.  For denominator 1 the encoder
writes exponent 0 (`dec2binDenom 1 = 0`) and the decoder turns exponent
0 into denominator 0, so `TimeSignature{4,1}` round-trips to
`TimeSignature{4,0}`. -/
theorem C5_denominator_one_counterexample :
    TimeSignature.readFrom ((TimeSignature.Raw 4 1).drop 2) = .ok (.timeSignature 4 0) [] ∧
    TimeSignature.readFrom ((TimeSignature.Raw 4 1).drop 2) ≠ .ok (.timeSignature 4 1) [] := by
  constructor
  · simp only [TimeSignature.Raw, TimeSignature.dec2binDenom, metaMessageBytes, vlqEncode]
    decide
  · simp only [TimeSignature.Raw, TimeSignature.dec2binDenom, metaMessageBytes, vlqEncode]
    decide

/-- C6 counterexample: the claim says `SequenceNumber` decode fails with
a length-mismatch error and returns no value whenever the declared
length is neither 0 nor 2.  With declared length 1 and two further bytes
`00 05` the code performs no length check at all: it reads a big-endian
`uint16` and returns `SequenceNumber(5)`. -/
theorem C6_length_one_counterexample :
    SequenceNumber.readFrom [1, 0, 5] = .ok (.sequenceNumber 5) [] := by
  decide

/-- C7 counterexample: the claim's formula `((sf * 7) - offset) mod 12`
is stated for every signed byte, but the code multiplies in `int8`:
for `sf = 19` the product 133 wraps to −123 and the stored key is 9,
while the claim's arithmetic gives `133 mod 12 = 1`. -/
theorem C7_int8_overflow_counterexample :
    KeySignature.readFrom [2, 19, 0] = .ok (.keySignature 9 true 19 false) [] ∧
    (((19 * 7 : Int) - 0) % 12).toNat = 1 ∧ (9 : Nat) ≠ 1 := by
  refine ⟨?_, by decide, by decide⟩
  simp [KeySignature.readFrom, KeySignature.keyFromSharpsOrFlats,
    KeySignature.addTwelveUntilNonneg, readVarLength, readVarLengthAux, readByte,
    toInt8, wrap8]

/-- Helper: the normalization loop preserves the residue modulo 12. -/
theorem addTwelveUntilNonneg_emod_aux :
    ∀ (n : Nat) (t : Int), (-t).toNat = n →
      KeySignature.addTwelveUntilNonneg t % 12 = t % 12 := by
  intro n
  induction n using Nat.strong_induction_on with
  | _ n ih =>
    intro t hn
    rw [KeySignature.addTwelveUntilNonneg]
    split
    · next h =>
      rw [ih (-(t + 12)).toNat (by omega) (t + 12) rfl]
      omega
    · rfl

/-- Helper: closed form of the residue of the normalization loop. -/
theorem addTwelveUntilNonneg_emod (t : Int) :
    KeySignature.addTwelveUntilNonneg t % 12 = t % 12 :=
  addTwelveUntilNonneg_emod_aux (-t).toNat t rfl

/-- Helper: on inputs whose `int8` product `sf * 7` does not overflow
(`|sf| ≤ 18`), `keyFromSharpsOrFlats` computes exactly the mathematical
circle-of-fifths formula `((sf * 7) - (3 if minor)) mod 12`. -/
theorem keyFromSharpsOrFlats_eq (sf : Int) (mode : Nat) (hsf : sf.natAbs ≤ 18) :
    KeySignature.keyFromSharpsOrFlats sf mode =
      ((sf * 7 - if mode = 1 then 3 else 0) % 12).toNat := by
  have hw : wrap8 (sf * 7) = sf * 7 := by
    unfold wrap8
    omega
  unfold KeySignature.keyFromSharpsOrFlats
  rw [hw]
  by_cases h : mode = 1
  · simp only [h, if_true, addTwelveUntilNonneg_emod]
  · simp only [h, if_false, addTwelveUntilNonneg_emod, sub_zero]

/-- C4 (amended): for a TimeSignature decode with declared length 4 the
stored `Denominator` is `2 << (e - 1)` in `uint8` arithmetic — that is
`2 ^ e mod 256` for `e ≥ 1` (so `2 ^ e` for `e ∈ [1,7]`, in particular 4
for `e = 2`) but 0 for `e = 0` (not `2 ^ 0 = 1`) and 0 for `e = 8`. -/
theorem C4_denominator_amended (num e c b : Nat) (rest : List Nat) (he : e < 256) :
    TimeSignature.readFrom (4 :: num :: e :: c :: b :: rest) =
      .ok (.timeSignature num (if e = 0 then 0 else 2 ^ e % 256)) rest := by
  have harith : (2 * 2 ^ ((e + 255) % 256)) % 256 = if e = 0 then 0 else 2 ^ e % 256 := by
    by_cases h : e = 0
    · subst h
      decide
    · rw [if_neg h]
      have h1 : (e + 255) % 256 = e - 1 := by omega
      have h2 : 2 * 2 ^ (e - 1) = 2 ^ e := by
        rw [← pow_succ']
        congr 1
        omega
      rw [h1, h2]
  simp only [TimeSignature.readFrom, readVarLength, readVarLengthAux, readByte]
  norm_num [harith]

/-- C4 witness: exponent 2 decodes to denominator 4. -/
theorem C4_denominator_witness :
    TimeSignature.readFrom [4, 6, 2, 24, 8] = .ok (.timeSignature 6 4) [] :=
  (C4_denominator_amended 6 2 24 8 [] (by decide)).trans (by decide)

/-- C5 (amended): for every numerator byte and every denominator in
{2, 4, 8, 16, 32} — denominator 1 is excluded, since its exponent 0
decodes back to 0 — decoding the encoding of `TimeSignature{num, denom}`
returns the same value, and the encoder always writes the two discarded
payload bytes (clocks-per-click and 32nd-notes-per-quarter) as 8 and 8
regardless of the source value. -/
theorem C5_roundtrip_amended (num denom : Nat) (hnum1 : 1 ≤ num) (hnum : num ≤ 255)
    (hd : denom = 2 ∨ denom = 4 ∨ denom = 8 ∨ denom = 16 ∨ denom = 32) :
    TimeSignature.readFrom ((TimeSignature.Raw num denom).drop 2) =
      .ok (.timeSignature num denom) [] ∧
    (TimeSignature.Raw num denom).drop 5 = [8, 8] := by
  rcases hd with h | h | h | h | h <;> subst h <;>
    refine ⟨?_, ?_⟩ <;>
    simp [TimeSignature.Raw, TimeSignature.dec2binDenom, TimeSignature.dec2binDenomLoop,
      metaMessageBytes, vlqEncode, TimeSignature.readFrom, readVarLength,
      readVarLengthAux, readByte]

/-- C5 witness: `TimeSignature{6, 8}` round-trips, and the discarded
bytes of its encoding are 8 and 8. -/
theorem C5_roundtrip_witness :
    TimeSignature.readFrom ((TimeSignature.Raw 6 8).drop 2) =
      .ok (.timeSignature 6 8) [] ∧
    (TimeSignature.Raw 6 8).drop 5 = [8, 8] :=
  C5_roundtrip_amended 6 8 (by decide) (by decide) (by tauto)

/-- C6 (amended): `SequenceNumber` decode performs no length-mismatch
validation at all.  The length is read as a single byte (not a VLQ); a
zero length yields `SequenceNumber(0)`, and every nonzero declared
length — 2 or not — causes exactly two further bytes to be read and
returned as a big-endian value, never a length-mismatch error. -/
theorem C6_seqnum_no_validation :
    (∀ rest, SequenceNumber.readFrom (0 :: rest) = .ok (.sequenceNumber 0) rest) ∧
    (∀ len b1 b2 rest, len ≠ 0 →
      SequenceNumber.readFrom (len :: b1 :: b2 :: rest) =
        .ok (.sequenceNumber (b1 * 256 + b2)) rest) := by
  constructor
  · intro rest
    simp [SequenceNumber.readFrom, readByte]
  · intro len b1 b2 rest h
    simp [SequenceNumber.readFrom, readByte, readUint16, h]

/-- C6 witness: declared length 0 returns `SequenceNumber(0)`; declared
length 3 (neither 0 nor 2) still reads two bytes and returns a value. -/
theorem C6_seqnum_witness :
    SequenceNumber.readFrom [0, 9] = .ok (.sequenceNumber 0) [9] ∧
    SequenceNumber.readFrom [3, 0, 5, 7] = .ok (.sequenceNumber 5) [7] :=
  ⟨C6_seqnum_no_validation.1 [9],
   (C6_seqnum_no_validation.2 3 0 5 [7] (by decide)).trans (by decide)⟩

/-- C7 (amended): for a sharps/flats byte whose signed value satisfies
`|sf| ≤ 18` (so that the `int8` product `sf * 7` does not wrap) and any
mode byte, a KeySignature decode with declared length 2 stores the pitch
class `((sf * 7) - (3 if mode = minor else 0)) mod 12` in `[0, 11]`,
the major flag `mode == 0`, the accidental count `|sf|` and the flat
polarity `sf < 0`; the claim's examples `sf = 2` major → D(2),
`sf = -3` major → E♭(3) and `sf = 0` minor → A(9) all lie in this
range.  For `|sf| ≥ 19` the `int8` multiplication wraps and the stored
pitch class differs from the claim's formula. -/
theorem C7_keysig_amended (b mode : Nat) (rest : List Nat) (hb : b < 256)
    (hsf : (toInt8 b).natAbs ≤ 18) :
    KeySignature.readFrom (2 :: b :: mode :: rest) =
      .ok (.keySignature ((toInt8 b * 7 - if mode = 1 then 3 else 0) % 12).toNat
            (decide (mode = 0)) (toInt8 b).natAbs (decide (toInt8 b < 0))) rest := by
  simp only [KeySignature.readFrom, readVarLength, readVarLengthAux, readByte]
  norm_num [keyFromSharpsOrFlats_eq (toInt8 b) mode hsf]

/-- C7 witness: the three examples of the claim. -/
theorem C7_keysig_witness :
    KeySignature.readFrom [2, 2, 0] = .ok (.keySignature 2 true 2 false) [] ∧
    KeySignature.readFrom [2, 253, 0] = .ok (.keySignature 3 true 3 true) [] ∧
    KeySignature.readFrom [2, 0, 1] = .ok (.keySignature 9 false 0 false) [] :=
  ⟨(C7_keysig_amended 2 0 [] (by decide) (by decide)).trans (by decide),
   (C7_keysig_amended 253 0 [] (by decide) (by decide)).trans (by decide),
   (C7_keysig_amended 0 1 [] (by decide) (by decide)).trans (by decide)⟩

/-- Helper: after any call to `reader.Read` the `done` flag of the
returned reader state is set (the source sets `r.done = true`
unconditionally right after the first byte read, and the early-return
branch requires it already set). -/
theorem read_sets_done (r : ChReader) : ((Reader.Read r).2).done = true := by
  rcases r with ⟨input, status, done, ped⟩
  cases done
  · cases input with
    | nil => simp [Reader.Read]
    | cons a rest1 =>
      by_cases ht : (status / 16 = 0xC ∨ status / 16 = 0xD)
      · simp [Reader.Read, ht]
      · cases rest1 <;> simp [Reader.Read, ht]
  · simp [Reader.Read]

/-- Helper: a `reader.Read` call on a reader whose `done` flag is set
returns `io.EOF` and leaves the state (hence the byte source)
untouched. -/
theorem read_when_done (r : ChReader) (h : r.done = true) :
    Reader.Read r = (.err .eof, r) := by
  unfold Reader.Read
  simp [h]

/-- C9: every channel reader is single-use: whatever the first `Read`
call returned (message or error), every subsequent `Read` on the
resulting reader state returns `io.EOF` and leaves the state — in
particular the byte source — unchanged. -/
theorem C9_reader_single_use (r : ChReader) :
    Reader.Read (Reader.Read r).2 = (ChanOutcome.err Err.eof, (Reader.Read r).2) :=
  read_when_done _ (read_sets_done r)

/-- C9 witness: a concrete second call returns `io.EOF` with the state
unchanged. -/
theorem C9_reader_witness :
    Reader.Read (Reader.Read (NewReader [60, 64] 0x95 false)).2 =
      (ChanOutcome.err Err.eof, (Reader.Read (NewReader [60, 64] 0x95 false)).2) :=
  C9_reader_single_use (NewReader [60, 64] 0x95 false)

/-- C10: for every status byte whose high nibble is outside 0x8–0xE
(0x0–0x7 or 0xF) and a byte source holding at least two bytes, the
channel reader's `Read` hits the `panic("must not happen ...")` default
branch of `getMsg2` instead of returning an error value. -/
theorem C10_invalid_status_panics (status a b : Nat) (rest : List Nat) (pedantic : Bool)
    (hs : status < 256) (ht : status / 16 < 8 ∨ status / 16 = 15) :
    (Reader.Read (NewReader (a :: b :: rest) status pedantic)).1 = .panicked := by
  have h1 : ¬(status / 16 = 0xC ∨ status / 16 = 0xD) := by omega
  have h8 : status / 16 ≠ 0x8 := by omega
  have h9 : status / 16 ≠ 0x9 := by omega
  have hA : status / 16 ≠ 0xA := by omega
  have hB : status / 16 ≠ 0xB := by omega
  have hE : status / 16 ≠ 0xE := by omega
  simp [Reader.Read, NewReader, getMsg2, classify2, h1, h8, h9, hA, hB, hE]

/-- C10 witness: status byte 0x70 (high nibble 7) with two data bytes
panics. -/
theorem C10_invalid_status_witness :
    (Reader.Read (NewReader [1, 2] 0x70 false)).1 = ChanOutcome.panicked :=
  C10_invalid_status_panics 0x70 1 2 [] false (by decide) (by norm_num)

end Midi
